import Mathlib

/-!
Shallow embedding of `viewflow/flow/start.py` (start flow task):
the `Start` event node with its builder methods (`Activate`, `Available`,
`Permission`), its authorization decision `has_perm`, the
`StartViewActivation` form-binding activation, and the
`flow_start_view` decorator (`StartViewDecorator`).

External collaborators (the principal store, the principal's own
permission-check capability, the management form machinery) are modelled
as oracles supplied in environment records.  Side effects that the source
performs against those collaborators are reified as event traces so that
"X is never evaluated/consulted" properties can be stated.
-/

namespace Viewflow

/-! ### Principals, owner and permission restrictions

`Start.Available` stores either a callable predicate over principals or a
mapping of lookup criteria (Python kwargs dict, modelled as an association
list).  `Start.Permission` stores either a permission-name string or a
callable predicate. -/

/-- Owner restriction value held in `Start._owner`: a callable predicate
`User -> bool`, or a kwargs mapping of user-lookup criteria. -/
inductive OwnerVal (U : Type) where
  | pred (f : U → Bool)
  | lookup (criteria : List (String × String))

/-- Permission restriction value held in `Start._owner_permission`:
a permission-name string, or a callable predicate `User -> bool`. -/
inductive PermVal (U : Type) where
  | name (s : String)
  | pred (f : U → Bool)

/-- Python truthiness of an owner restriction value: a function object is
always truthy; a dict is truthy iff non-empty. -/
def OwnerVal.py_truthy {U : Type} : OwnerVal U → Bool
  | .pred _ => true
  | .lookup c => !c.isEmpty

/-- Python truthiness of `self._owner` (`None` is falsy). -/
def ownerTruthy {U : Type} : Option (OwnerVal U) → Bool
  | none => false
  | some v => v.py_truthy

/-- Python truthiness of a permission restriction value: a function object
is always truthy; a string is truthy iff non-empty. -/
def PermVal.py_truthy {U : Type} : PermVal U → Bool
  | .name s => !s.isEmpty
  | .pred _ => true

/-- Events recording which external checks `has_perm` performs. -/
inductive Ev where
  /-- the callable owner predicate was invoked on the principal -/
  | owner_pred_eval
  /-- the external principal store was queried (`get_user_model().get`) -/
  | store_lookup
  /-- the callable permission predicate was invoked on the principal -/
  | perm_pred_eval
  /-- the principal's own permission-check capability was called
      (`user.has_perm(...)`) -/
  | user_has_perm_call
deriving DecidableEq, Repr

/-- Runtime errors `has_perm` can surface. -/
inductive PyErr where
  /-- `TypeError`: `**`-unpacking a non-mapping (a function object) into
      the store lookup call -/
  | type_error
  /-- error raised by the external principal store
      (no such principal / multiple principals) -/
  | store_error (msg : String)
deriving DecidableEq, Repr

/-- External collaborators of `has_perm`: the principal store resolving a
unique principal from lookup criteria, and the principal's own
permission-check capability (`user.has_perm`, which receives the raw
stored restriction value). -/
structure AuthEnv (U : Type) where
  get_user : List (String × String) → Except String U
  user_has_perm : U → PermVal U → Bool

/-! ### Classes and the Start node -/

/-- A Python class object, as far as the start node cares: an identity and
whether it is a subclass of `StartActivation` (implements the activation
capability). -/
structure PyCls where
  id : Nat
  is_start_activation_sub : Bool
deriving DecidableEq, Repr

/-- The class attribute default `Start.activation_cls = StartViewActivation`.
`StartViewActivation` subclasses `StartActivation`. -/
def startViewActivationCls : PyCls := ⟨0, true⟩

/-- The `view_or_cls` constructor argument of `Start.__init__`:
nothing, a plain view function, or a class-based-view class. -/
inductive ViewOrCls where
  | none
  | func (id : Nat)
  | cls (c : PyCls)

/-- The `Start` event node.  `U` is the principal type, `N` the type of
successor nodes.  Field names follow the source attributes. -/
structure Start (U : Type) (N : Type) where
  view_fn : Option Nat
  view_cls : Option PyCls
  view_args : Option (List (String × String))
  /-- the resolved `activation_cls` attribute (instance attribute if set by
      construction, else the class attribute default) -/
  activation_cls : PyCls
  activate_next_list : List N
  owner : Option (OwnerVal U)
  owner_permission : Option (PermVal U)
  assign_view : Option Nat

/-- Modelled from the spec: `Event`/`Node` construction
(`viewflow/flow/base.py` is not under `src/`).  Per the construction
contract, the node keeps the explicitly passed activation type; otherwise
the class default (`StartViewActivation`) is kept, so the resolved
`activation_cls` attribute of a `Start` node is always a class object. -/
def eventNodeActivationCls (ac : Option PyCls) : PyCls :=
  ac.getD startViewActivationCls

/-- `Start.__init__(view_or_cls=None, activation_cls=None, **kwargs)`:
dispatches on whether `view_or_cls` is a function or a class; a class that
subclasses `StartActivation` becomes the activation type, overriding the
passed one; then the base constructor runs and the mutable wiring state is
initialised empty. -/
def Start.init {U N : Type} (view_or_cls : ViewOrCls) (activation_cls : Option PyCls)
    (kwargs : List (String × String)) : Start U N :=
  match view_or_cls with
  | .none =>
      { view_fn := none, view_cls := none, view_args := none
        activation_cls := eventNodeActivationCls activation_cls
        activate_next_list := [], owner := none, owner_permission := none
        assign_view := none }
  | .func f =>
      { view_fn := some f, view_cls := none, view_args := none
        activation_cls := eventNodeActivationCls activation_cls
        activate_next_list := [], owner := none, owner_permission := none
        assign_view := none }
  | .cls c =>
      { view_fn := none, view_cls := some c, view_args := some kwargs
        activation_cls :=
          eventNodeActivationCls
            (if c.is_start_activation_sub then some c else activation_cls)
        activate_next_list := [], owner := none, owner_permission := none
        assign_view := none }

/-- `Start.Activate(node)`: appends `node` to `_activate_next`
(returns `self`: in this pure embedding, the node with only that list
extended). -/
def Start.Activate {U N : Type} (s : Start U N) (node : N) : Start U N :=
  { s with activate_next_list := s.activate_next_list ++ [node] }

/-- Python truthiness of the `owner` positional argument of `Available`
(`None` is falsy, a function is truthy, a dict is truthy iff non-empty). -/
def ownerArgTruthy {U : Type} : Option (OwnerVal U) → Bool
  | none => false
  | some v => v.py_truthy

/-- `Start.Available(owner=None, **owner_kwargs)`: if `owner` is truthy it
becomes `_owner`, else `_owner` becomes the kwargs dict. -/
def Start.Available {U N : Type} (s : Start U N) (owner : Option (OwnerVal U))
    (owner_kwargs : List (String × String)) : Start U N :=
  if ownerArgTruthy owner then
    { s with owner := owner }
  else
    { s with owner := some (.lookup owner_kwargs) }

/-- `Start.Permission(permission, assign_view=None)`: stores the
restriction and the optional assign view. -/
def Start.Permission {U N : Type} (s : Start U N) (permission : PermVal U)
    (assign_view : Option Nat) : Start U N :=
  { s with owner_permission := some permission, assign_view := assign_view }

/-! ### has_perm -/

/-- The owner branch of `has_perm` (`self._owner` is truthy):
`if callable(self._owner) and self._owner(user): return True`, then
`owner = get_user_model()._default_manager.get(**self._owner)` and
`return owner == user`.  When `_owner` is a function whose predicate
returned `False`, the `**`-unpacking of the function raises `TypeError`
before the store is reached. -/
def hasPermOwner {U : Type} [DecidableEq U] (env : AuthEnv U) (o : OwnerVal U)
    (user : U) : Except PyErr Bool × List Ev :=
  match o with
  | .pred f =>
      if f user then (.ok true, [.owner_pred_eval])
      else (.error .type_error, [.owner_pred_eval])
  | .lookup c =>
      match env.get_user c with
      | .ok owner => (.ok (decide (owner = user)), [.store_lookup])
      | .error m => (.error (.store_error m), [.store_lookup])

/-- The permission branch of `has_perm` (`self._owner_permission` is
truthy): `if callable(self._owner_permission) and
self._owner_permission(user): return True`, then
`return user.has_perm(self._owner_permission)` — note the fall-through
passes the raw stored value (a string OR a function) to the principal's
permission-check capability. -/
def hasPermPermission {U : Type} (env : AuthEnv U) (p : PermVal U)
    (user : U) : Except PyErr Bool × List Ev :=
  match p with
  | .pred f =>
      if f user then (.ok true, [.perm_pred_eval])
      else (.ok (env.user_has_perm user (.pred f)),
            [.perm_pred_eval, .user_has_perm_call])
  | .name nm =>
      (.ok (env.user_has_perm user (.name nm)), [.user_has_perm_call])

/-- The non-owner part of `has_perm`: the `elif self._owner_permission:`
branch if that attribute is truthy, else open access (`return True`). -/
def hasPermNotOwner {U : Type} (env : AuthEnv U) (p : Option (PermVal U))
    (user : U) : Except PyErr Bool × List Ev :=
  match p with
  | some pv =>
      if pv.py_truthy then hasPermPermission env pv user
      else (.ok true, [])
  | none => (.ok true, [])

/-- `Start.has_perm(user)`: owner branch if `self._owner` is truthy, else
permission branch if `self._owner_permission` is truthy, else `True`.
Returns the decision (or raised error) together with the trace of external
checks performed. -/
def Start.has_perm {U N : Type} [DecidableEq U] (env : AuthEnv U) (s : Start U N)
    (user : U) : Except PyErr Bool × List Ev :=
  match s.owner with
  | some o =>
      if o.py_truthy then hasPermOwner env o user
      else hasPermNotOwner env s.owner_permission user
  | none => hasPermNotOwner env s.owner_permission user

/-! ### Outgoing edges and activate_next -/

/-- Modelled from the spec: `Edge` (`viewflow/flow/base.py`, not under
`src/`) — a directed transition `{src, dst, edge_class}`. -/
structure Edge (S : Type) (N : Type) where
  src : S
  dst : N
  edge_class : String

/-- `Start._outgoing()`: yields `Edge(src=self, dst=next_node,
edge_class='next')` for every node in `_activate_next`. -/
def Start.outgoing {U N : Type} (s : Start U N) : List (Edge (Start U N) N) :=
  s.activate_next_list.map (fun next_node => ⟨s, next_node, "next"⟩)

/-- One `dst.activate(prev_activation=...)` call performed by
`activate_next`; `A` is the type of activations. -/
structure ActivateCall (N : Type) (A : Type) where
  dst : N
  prev_activation : A
deriving DecidableEq, Repr

/-- `Start.activate_next(self_activation)`: for every outgoing edge, calls
`outgoing.dst.activate(prev_activation=self_activation)`.  Destination
activation is external; the value is the ordered trace of those calls. -/
def Start.activate_next {U N A : Type} (s : Start U N) (self_activation : A) :
    List (ActivateCall N A) :=
  s.outgoing.map (fun outgoing => ⟨outgoing.dst, self_activation⟩)

/-! ### StartViewActivation -/

/-- Lifecycle state of the base `StartActivation`
(spec §4.3 state machine). -/
inductive ActStatus where
  | unprepared
  | prepared
deriving DecidableEq, Repr

/-- What a bound management form exposes: `is_valid()`, `errors`, and the
record returned by `save(commit=False)` (the uncommitted updated record).
`T` is the task-record type. -/
structure FormOut (T : Type) where
  valid : Bool
  errors : String
  saved : T

/-- A management form class: constructing it binds submitted `data` and the
current task record `instance`.  `D` is the payload type of submitted
data. -/
def FormCls (D : Type) (T : Type) : Type := Option D → T → FormOut T

/-- Persistence-layer events. -/
inductive PersistEv where
  /-- `form.save(commit=False)`: produce the updated record without
      persisting -/
  | save_no_commit
  /-- the persistence commit (performed by `done()`) -/
  | commit
deriving DecidableEq, Repr

/-- `FlowRuntimeError` raised by `prepare` on a broken management form. -/
inductive FlowErr where
  | flow_runtime_error (msg : String)
deriving DecidableEq, Repr

/-- State of a `StartViewActivation`.  The `status` and `task` fields are
the base `StartActivation` state, modelled from the spec (that class lives
in `viewflow/activation.py`, not under `src/`): an activation references
exactly one task record and moves `unprepared -> prepared`. -/
structure StartViewActivationS (D T : Type) where
  status : ActStatus
  task : T
  management_form : Option (FormOut T)
  management_form_cls : Option (FormCls D T)

/-- The process definition's side of the activation: the flow class default
management form class (`self.flow_cls.management_form_cls`). -/
structure FlowEnv (D T : Type) where
  flow_management_form_cls : FormCls D T

/-- `StartViewActivation.__init__(management_form_cls=None)`: no form bound
yet; the class override kept only when given. -/
def StartViewActivationS.init {D T : Type} (management_form_cls : Option (FormCls D T))
    (task0 : T) : StartViewActivationS D T :=
  { status := .unprepared, task := task0, management_form := none
    management_form_cls := management_form_cls }

/-- `get_management_form_cls()`: the instance override if truthy, else the
flow class default. -/
def StartViewActivationS.get_management_form_cls {D T : Type} (env : FlowEnv D T)
    (s : StartViewActivationS D T) : FormCls D T :=
  match s.management_form_cls with
  | some cls => cls
  | none => env.flow_management_form_cls

/-- Modelled from the spec: `StartActivation.prepare`
(`viewflow/activation.py`, not under `src/`) transitions the activation
from unprepared to prepared. -/
def startActivationPrepare {D T : Type} (s : StartViewActivationS D T) :
    StartViewActivationS D T :=
  { s with status := .prepared }

/-- `StartViewActivation.prepare(data=None)`: runs the base prepare, binds
the management form to `data` and the current task, and if `data` is
present validates it — raising `FlowRuntimeError` carrying the form errors
on failure, or replacing `self.task` with `form.save(commit=False)` on
success.  Returns the outcome, the resulting in-memory state (reflecting
mutations made before any raise), and the persistence events performed.
A present payload (`some d`) is modelled as truthy: callers pass
`request.POST or None`. -/
def StartViewActivationS.prepare {D T : Type} (env : FlowEnv D T)
    (s : StartViewActivationS D T) (data : Option D) :
    Except FlowErr Unit × StartViewActivationS D T × List PersistEv :=
  let s1 := startActivationPrepare s
  let management_form_cls := StartViewActivationS.get_management_form_cls env s1
  let form := management_form_cls data s1.task
  let s2 := { s1 with management_form := some form }
  match data with
  | some _ =>
      if !form.valid then
        (.error (.flow_runtime_error ("Activation metadata is broken " ++ form.errors)),
         s2, [])
      else
        (.ok (), { s2 with task := form.saved }, [.save_no_commit])
  | none => (.ok (), s2, [])

/-- Modelled from the spec: `StartActivation.done`
(`viewflow/activation.py`, not under `src/`) finalizes and persists the
task record — the persistence commit happens here, and only here. -/
def StartViewActivationS.done {D T : Type} (s : StartViewActivationS D T) :
    StartViewActivationS D T × List PersistEv :=
  (s, [.commit])

/-! ### StartViewDecorator (flow_start_view) -/

/-- A Python object instance seen by the decorator's descriptor access:
identity plus whether `isinstance(instance, StartActivation)` holds. -/
structure PyInstance where
  id : Nat
  is_start_activation : Bool
deriving DecidableEq, Repr

/-- The decorator's wrapped callable: a plain function or a method bound to
an instance by descriptor access. -/
inductive BoundFunc where
  | plain (id : Nat)
  | bound (id : Nat) (inst : Nat)
deriving DecidableEq, Repr

/-- `func.__get__(instance, type)`: bind the callable to the instance. -/
def bindFunc : BoundFunc → PyInstance → BoundFunc
  | .plain f, i => .bound f i.id
  | .bound f _, i => .bound f i.id

/-- The `StartViewDecorator` object: the wrapped callable and the optional
activation instance captured by descriptor access. -/
structure StartViewDecorator where
  func : BoundFunc
  activation : Option PyInstance
deriving DecidableEq, Repr

/-- `StartViewDecorator.__get__(instance, instancetype)`: `self` when
accessed on the class; otherwise a new decorator wrapping the bound method,
with the instance captured as the activation exactly when it implements
`StartActivation`. -/
def StartViewDecorator.dunder_get (d : StartViewDecorator)
    (inst : Option PyInstance) : StartViewDecorator :=
  match inst with
  | none => d
  | some i =>
      { func := bindFunc d.func i
        activation := if i.is_start_activation then some i else none }

/-- Python truthiness of a class object: always truthy. -/
def PyCls.py_truthy (_ : PyCls) : Bool := true

/-- The activation object handed to the wrapped view. -/
inductive ActivationRef where
  /-- the bound instance itself is the activation -/
  | instance_act (i : PyInstance)
  /-- a newly constructed `flow_task.activation_cls()` -/
  | fresh (cls : PyCls)
deriving DecidableEq, Repr

/-- Observable outcome of `StartViewDecorator.__call__`. -/
structure CallTrace where
  /-- `warnings.warn(...)` was emitted -/
  warned : Bool
  /-- a separate activation object was constructed, and from which class -/
  constructed : Option PyCls
  /-- which activation object got `.initialize(flow_task)` -/
  initialized : ActivationRef
  /-- the activation argument passed to `self.func` (`none`: the wrapped
      callable was invoked without an activation argument) -/
  func_activation_arg : Option ActivationRef
deriving DecidableEq, Repr

/-- `StartViewDecorator.__call__(request, flow_task, **kwargs)`: warn when
both `self.activation` and `flow_task.activation_cls` are truthy; then
either reuse the captured instance as the activation (invoking the wrapped
callable without an activation argument) or construct and initialize a
fresh `flow_task.activation_cls()` and pass it to the callable. -/
def StartViewDecorator.call {U N : Type} (d : StartViewDecorator)
    (flow_task : Start U N) : CallTrace :=
  let warned := d.activation.isSome && flow_task.activation_cls.py_truthy
  match d.activation with
  | some i =>
      { warned := warned, constructed := none
        initialized := .instance_act i, func_activation_arg := none }
  | none =>
      { warned := warned, constructed := some flow_task.activation_cls
        initialized := .fresh flow_task.activation_cls
        func_activation_arg := some (.fresh flow_task.activation_cls) }

/-! ### Concrete environments used by closed theorems and witnesses -/

/-- A principal store answering user `0`, and a permission-check capability
that denies everything. -/
def authEnvDenyAll : AuthEnv Nat :=
  { get_user := fun _ => .ok 0, user_has_perm := fun _ _ => false }

/-- A principal store answering user `0`, and a permission-check capability
that grants everything (an auth backend may answer `True` even for a
non-string permission value). -/
def authEnvGrantAll : AuthEnv Nat :=
  { get_user := fun _ => .ok 0, user_has_perm := fun _ _ => true }

/-! ### Claims about has_perm -/

/-- C1: for a Start node whose owner restriction is a callable predicate,
the claim `has_perm(p) == predicate(p)` holds when the predicate answers
`True`, but NOT when it answers `False`: the code falls through to
`get_user_model()._default_manager.get(**self._owner)` and `TypeError`s on
`**`-unpacking the function, instead of returning `False`. -/
theorem c1_callable_owner_predicate_bug :
    (((Start.init .none none [] : Start Nat Nat).Available
        (some (.pred (fun _ => true))) []).has_perm authEnvDenyAll 5
      = (.ok true, [.owner_pred_eval]))
    ∧ (((Start.init .none none [] : Start Nat Nat).Available
        (some (.pred (fun _ => false))) []).has_perm authEnvDenyAll 5
      = (.error .type_error, [.owner_pred_eval])) :=
  ⟨rfl, rfl⟩

/-- C2: for a Start node with no owner restriction and a callable
permission restriction, when the predicate answers `False` the code does
NOT return `False`: it falls through to `user.has_perm(<the callable>)`,
consulting the principal's own permission-check capability (here one that
grants, so `has_perm` answers `True` although the predicate said
`False`). -/
theorem c2_callable_permission_bug :
    (((Start.init .none none [] : Start Nat Nat).Permission
        (.pred (fun _ => true)) none).has_perm authEnvGrantAll 5
      = (.ok true, [.perm_pred_eval]))
    ∧ (((Start.init .none none [] : Start Nat Nat).Permission
        (.pred (fun _ => false)) none).has_perm authEnvGrantAll 5
      = (.ok true, [.perm_pred_eval, .user_has_perm_call])) :=
  ⟨rfl, rfl⟩

/-- C3: when a truthy owner restriction and a permission restriction are
both configured, `has_perm` evaluates only the owner branch: its trace
contains no permission-predicate evaluation and no call to the principal's
permission-check capability, and the outcome is unchanged under any
replacement of the permission restriction. -/
theorem c3_owner_precedence {U N : Type} [DecidableEq U] (env : AuthEnv U)
    (s : Start U N) (u : U) (p : Option (PermVal U))
    (ho : ownerTruthy s.owner = true) (_hp : s.owner_permission.isSome = true) :
    Ev.perm_pred_eval ∉ (s.has_perm env u).2
    ∧ Ev.user_has_perm_call ∉ (s.has_perm env u).2
    ∧ ({ s with owner_permission := p } : Start U N).has_perm env u
        = s.has_perm env u := by
  cases hso : s.owner with
  | none => rw [hso] at ho; simp [ownerTruthy] at ho
  | some o =>
    have hpt : o.py_truthy = true := by
      rw [hso] at ho; simpa [ownerTruthy] using ho
    have h1 : s.has_perm env u = hasPermOwner env o u := by
      simp [Start.has_perm, hso, hpt]
    refine ⟨?_, ?_, ?_⟩
    · rw [h1]
      cases o with
      | pred f => cases hf : f u <;> simp [hasPermOwner, hf]
      | lookup c => cases hg : env.get_user c <;> simp [hasPermOwner, hg]
    · rw [h1]
      cases o with
      | pred f => cases hf : f u <;> simp [hasPermOwner, hf]
      | lookup c => cases hg : env.get_user c <;> simp [hasPermOwner, hg]
    · rw [h1]
      simp [Start.has_perm, hpt]

/-- A node with both an owner predicate and a permission name configured,
used to witness owner precedence. -/
def c3node : Start Nat Nat :=
  (((Start.init .none none []).Available
      (some (.pred (fun u => decide (u = 1)))) []).Permission
    (.name "app.can_start") none)

/-- Witness for C3 at a concrete node, environment and principal. -/
theorem c3_owner_precedence_witness :
    Ev.perm_pred_eval ∉ (c3node.has_perm authEnvGrantAll 2).2
    ∧ Ev.user_has_perm_call ∉ (c3node.has_perm authEnvGrantAll 2).2
    ∧ ({ c3node with owner_permission := some (.pred (fun _ => true)) }
          : Start Nat Nat).has_perm authEnvGrantAll 2
        = c3node.has_perm authEnvGrantAll 2 :=
  c3_owner_precedence authEnvGrantAll c3node 2
    (some (.pred (fun _ => true))) rfl rfl

/-- C4: a Start node fresh from the constructor — neither `Available` nor
`Permission` has been called — authorizes every principal: `has_perm`
returns `True` with no external check performed. -/
theorem c4_no_restriction_always_true {U N : Type} [DecidableEq U]
    (env : AuthEnv U) (v : ViewOrCls) (ac : Option PyCls)
    (kw : List (String × String)) (u : U) :
    (Start.init v ac kw : Start U N).has_perm env u = (.ok true, []) := by
  cases v <;> rfl

/-- C10: calling `Available()` with a falsy owner argument and no lookup
kwargs stores the empty lookup mapping as the owner restriction; that
empty mapping is falsy, so `has_perm` treats it as no owner restriction:
with no permission restriction the node authorizes every principal and the
principal store is never queried. -/
theorem c10_empty_available_open_access {U N : Type} [DecidableEq U]
    (env : AuthEnv U) (s : Start U N) (owner : Option (OwnerVal U)) (u : U)
    (how : ownerArgTruthy owner = false)
    (hp : s.owner_permission = none) :
    (s.Available owner []).owner = some (.lookup [])
    ∧ (s.Available owner []).has_perm env u = (.ok true, [])
    ∧ Ev.store_lookup ∉ ((s.Available owner []).has_perm env u).2 := by
  have ha : s.Available owner [] = { s with owner := some (.lookup []) } := by
    simp [Start.Available, how]
  refine ⟨by rw [ha], ?_, ?_⟩ <;>
    rw [ha] <;>
    simp [Start.has_perm, OwnerVal.py_truthy, hasPermNotOwner, hp]

/-- Witness for C10: `Available()` with no owner and no kwargs on a fresh
node. -/
theorem c10_empty_available_open_access_witness :
    ((Start.init .none none [] : Start Nat Nat).Available none []).owner
        = some (.lookup [])
    ∧ ((Start.init .none none [] : Start Nat Nat).Available none []).has_perm
        authEnvDenyAll 5 = (.ok true, [])
    ∧ Ev.store_lookup ∉
        (((Start.init .none none [] : Start Nat Nat).Available none []).has_perm
          authEnvDenyAll 5).2 :=
  c10_empty_available_open_access authEnvDenyAll
    (Start.init .none none []) none 5 rfl rfl

/-! ### Claim about Activate / activate_next -/

/-- Folding `Activate` over a list appends the nodes, in order, to
`_activate_next`. -/
theorem foldl_Activate_activate_next_list {U N : Type} (s : Start U N)
    (ns : List N) :
    (ns.foldl Start.Activate s).activate_next_list
      = s.activate_next_list ++ ns := by
  induction ns generalizing s with
  | nil => simp
  | cons a as ih => simp [List.foldl_cons, ih, Start.Activate]

/-- C5: each `Activate(node)` appends exactly that node to the outgoing
list and changes nothing else on the node (fluent chaining), and after a
sequence of `Activate` calls on a freshly constructed node,
`activate_next` activates the destinations exactly in the order they were
passed, each call exactly once, with the given activation as predecessor
context. -/
theorem c5_activate_accumulates_and_fires_in_order {U N A : Type}
    (s : Start U N) (n : N) (v : ViewOrCls) (ac : Option PyCls)
    (kw : List (String × String)) (ns : List N) (act : A) :
    ((s.Activate n).activate_next_list = s.activate_next_list ++ [n]
      ∧ (s.Activate n).owner = s.owner
      ∧ (s.Activate n).owner_permission = s.owner_permission
      ∧ (s.Activate n).activation_cls = s.activation_cls
      ∧ (s.Activate n).view_fn = s.view_fn
      ∧ (s.Activate n).view_cls = s.view_cls
      ∧ (s.Activate n).view_args = s.view_args
      ∧ (s.Activate n).assign_view = s.assign_view)
    ∧ (ns.foldl Start.Activate (Start.init v ac kw : Start U N)).activate_next
        act = ns.map (fun m => ⟨m, act⟩) := by
  refine ⟨⟨rfl, rfl, rfl, rfl, rfl, rfl, rfl, rfl⟩, ?_⟩
  have hinit : (Start.init v ac kw : Start U N).activate_next_list = [] := by
    cases v <;> rfl
  simp [Start.activate_next, Start.outgoing,
        foldl_Activate_activate_next_list, hinit]

/-! ### Claims about StartViewActivation.prepare -/

/-- C6: `prepare` with data present and a form failing validation raises
`FlowRuntimeError` carrying the form's error detail, performs no
persistence event, and leaves the in-memory task record the same record as
before the call. -/
theorem c6_invalid_form_raises_and_preserves_task {D T : Type}
    (env : FlowEnv D T) (s : StartViewActivationS D T) (d : D)
    (hv : (StartViewActivationS.get_management_form_cls env s
            (some d) s.task).valid = false) :
    (StartViewActivationS.prepare env s (some d)).1
        = .error (.flow_runtime_error ("Activation metadata is broken "
            ++ (StartViewActivationS.get_management_form_cls env s
                  (some d) s.task).errors))
    ∧ (StartViewActivationS.prepare env s (some d)).2.1.task = s.task
    ∧ (StartViewActivationS.prepare env s (some d)).2.2 = [] := by
  obtain ⟨st, tk, mf, mfc⟩ := s
  cases mfc <;>
    simp_all [StartViewActivationS.prepare, startActivationPrepare,
              StartViewActivationS.get_management_form_cls]

/-- A management form environment whose forms always fail validation. -/
def invalidFormEnv : FlowEnv Nat Nat :=
  { flow_management_form_cls := fun _ t => ⟨false, "field required", t + 1⟩ }

/-- A management form environment whose forms always validate, producing
the incremented record as the uncommitted save. -/
def validFormEnv : FlowEnv Nat Nat :=
  { flow_management_form_cls := fun _ t => ⟨true, "", t + 1⟩ }

/-- Witness for C6 at a concrete activation and failing form. -/
theorem c6_invalid_form_raises_and_preserves_task_witness :
    (StartViewActivationS.prepare invalidFormEnv
        (StartViewActivationS.init none 42 : StartViewActivationS Nat Nat)
        (some 7)).1
      = .error (.flow_runtime_error "Activation metadata is broken field required")
    ∧ (StartViewActivationS.prepare invalidFormEnv
        (StartViewActivationS.init none 42 : StartViewActivationS Nat Nat)
        (some 7)).2.1.task = 42
    ∧ (StartViewActivationS.prepare invalidFormEnv
        (StartViewActivationS.init none 42 : StartViewActivationS Nat Nat)
        (some 7)).2.2 = [] :=
  c6_invalid_form_raises_and_preserves_task invalidFormEnv
    (StartViewActivationS.init none 42) 7 rfl

/-- C7: `prepare` with data present and a validating form succeeds,
replaces the in-memory task record with the form's uncommitted
(`save(commit=False)`) record, performs no persistence commit — its only
persistence event is the uncommitted save — while `done()` is where the
commit happens. -/
theorem c7_valid_form_replaces_task_no_commit {D T : Type}
    (env : FlowEnv D T) (s : StartViewActivationS D T) (d : D)
    (hv : (StartViewActivationS.get_management_form_cls env s
            (some d) s.task).valid = true) :
    (StartViewActivationS.prepare env s (some d)).1 = .ok ()
    ∧ (StartViewActivationS.prepare env s (some d)).2.1.task
        = (StartViewActivationS.get_management_form_cls env s
            (some d) s.task).saved
    ∧ (StartViewActivationS.prepare env s (some d)).2.2 = [.save_no_commit]
    ∧ PersistEv.commit ∉ (StartViewActivationS.prepare env s (some d)).2.2
    ∧ (StartViewActivationS.done
        (StartViewActivationS.prepare env s (some d)).2.1).2 = [.commit] := by
  obtain ⟨st, tk, mf, mfc⟩ := s
  cases mfc <;>
    simp_all [StartViewActivationS.prepare, startActivationPrepare,
              StartViewActivationS.get_management_form_cls,
              StartViewActivationS.done]

/-- Witness for C7 at a concrete activation and validating form. -/
theorem c7_valid_form_replaces_task_no_commit_witness :
    (StartViewActivationS.prepare validFormEnv
        (StartViewActivationS.init none 42 : StartViewActivationS Nat Nat)
        (some 7)).1 = .ok ()
    ∧ (StartViewActivationS.prepare validFormEnv
        (StartViewActivationS.init none 42 : StartViewActivationS Nat Nat)
        (some 7)).2.1.task = 43
    ∧ (StartViewActivationS.prepare validFormEnv
        (StartViewActivationS.init none 42 : StartViewActivationS Nat Nat)
        (some 7)).2.2 = [.save_no_commit]
    ∧ PersistEv.commit ∉
        (StartViewActivationS.prepare validFormEnv
          (StartViewActivationS.init none 42 : StartViewActivationS Nat Nat)
          (some 7)).2.2
    ∧ (StartViewActivationS.done
        (StartViewActivationS.prepare validFormEnv
          (StartViewActivationS.init none 42 : StartViewActivationS Nat Nat)
          (some 7)).2.1).2 = [.commit] :=
  c7_valid_form_replaces_task_no_commit validFormEnv
    (StartViewActivationS.init none 42) 7 rfl

/-! ### Claim about Start construction with a view class -/

/-- C8: constructing a Start node with a view class: a class implementing
the activation capability becomes the node's activation type, overriding
any explicitly passed one; a class that does not keeps the explicitly
passed activation type, or, absent that, the class default. -/
theorem c8_activation_cls_auto_detection {U N : Type} (c : PyCls)
    (ac : Option PyCls) (kw : List (String × String)) :
    (c.is_start_activation_sub = true →
      (Start.init (.cls c) ac kw : Start U N).activation_cls = c)
    ∧ (c.is_start_activation_sub = false →
      (Start.init (.cls c) ac kw : Start U N).activation_cls
        = ac.getD startViewActivationCls) := by
  constructor <;> intro h <;>
    simp [Start.init, eventNodeActivationCls, h]

/-- Witness for C8: an activation-capable class overrides the explicit
type; a plain class keeps it. -/
theorem c8_activation_cls_auto_detection_witness :
    (Start.init (.cls ⟨3, true⟩) (some ⟨5, false⟩) []
        : Start Nat Nat).activation_cls = ⟨3, true⟩
    ∧ (Start.init (.cls ⟨4, false⟩) (some ⟨5, false⟩) []
        : Start Nat Nat).activation_cls = ⟨5, false⟩ :=
  ⟨(c8_activation_cls_auto_detection ⟨3, true⟩ (some ⟨5, false⟩) []).1 rfl,
   (c8_activation_cls_auto_detection ⟨4, false⟩ (some ⟨5, false⟩) []).2 rfl⟩

/-! ### Claim about the decorator -/

/-- C9 counterexample: the flow task specifies NO explicit activation type
(constructed with `activation_cls=None`), the wrapped target is bound to
an activation-capable instance, and the warning IS emitted — the claim, as
stated, requires no warning here.  The node's `activation_cls` attribute
holds the class default, a class object, which is truthy. -/
theorem c9_warning_without_explicit_cls :
    (((StartViewDecorator.mk (.plain 2) none).dunder_get
        (some ⟨7, true⟩)).call
      (Start.init (.func 1) none [] : Start Nat Nat)).warned = true :=
  rfl

/-- C9 (amended): when the wrapped target is bound to an activation-capable
instance, that instance is the activation — no separate activation is
constructed, the instance is the one initialized against the node, and the
wrapped callable is invoked without an activation argument — and the
warning is emitted for every Start node (its activation-type attribute
always holds a class object, which is truthy), not only when an explicit
activation type was specified; when the bound instance does not implement
the capability, a fresh activation is constructed from the node's
configured activation type, initialized against the node, and passed to
the wrapped callable, with no warning. -/
theorem c9_decorator_activation_reuse {U N : Type} (d : StartViewDecorator)
    (i : PyInstance) (node : Start U N) :
    (i.is_start_activation = true →
      (d.dunder_get (some i)).call node
        = { warned := true, constructed := none
            initialized := .instance_act i, func_activation_arg := none })
    ∧ (i.is_start_activation = false →
      (d.dunder_get (some i)).call node
        = { warned := false, constructed := some node.activation_cls
            initialized := .fresh node.activation_cls
            func_activation_arg := some (.fresh node.activation_cls) }) := by
  constructor <;> intro h <;>
    simp [StartViewDecorator.dunder_get, StartViewDecorator.call, h,
          PyCls.py_truthy]

/-- Witness for the amended C9 behaviour at concrete instances. -/
theorem c9_decorator_activation_reuse_witness :
    (((StartViewDecorator.mk (.plain 2) none).dunder_get
        (some ⟨7, true⟩)).call
      (Start.init (.func 1) none [] : Start Nat Nat))
      = { warned := true, constructed := none
          initialized := .instance_act ⟨7, true⟩, func_activation_arg := none }
    ∧ (((StartViewDecorator.mk (.plain 2) none).dunder_get
        (some ⟨8, false⟩)).call
      (Start.init (.func 1) none [] : Start Nat Nat))
      = { warned := false, constructed := some startViewActivationCls
          initialized := .fresh startViewActivationCls
          func_activation_arg := some (.fresh startViewActivationCls) } :=
  ⟨(c9_decorator_activation_reuse (StartViewDecorator.mk (.plain 2) none)
      ⟨7, true⟩ (Start.init (.func 1) none [])).1 rfl,
   (c9_decorator_activation_reuse (StartViewDecorator.mk (.plain 2) none)
      ⟨8, false⟩ (Start.init (.func 1) none [])).2 rfl⟩

end Viewflow
